import Mathlib

/-!
Verification of the q asynchronous toolkit: the `q::expect` value carrier
(src/libs/q/include/q/expect.hpp) and the channel subsystem.  The channel
implementation itself is not among the provided sources (only its test
suite, src/tests/q/src/channel.cpp, is), so the channel operations are
modelled from the specification's operational description (spec.md §4.3);
the `expect` definitions are translated directly from expect.hpp.
-/

namespace QSpec

/-!
## The expect<T> carrier (src/libs/q/include/q/expect.hpp)

A `std::exception_ptr` is modelled as `Option Nat`: `none` is the null
exception pointer, `some tok` a captured exception identified by an opaque
token `tok`.  `detail::expect_exception` stores such a pointer in `e_`;
`detail::expect_value` stores the value slot `t_` (default-constructed or
moved-from slots are modelled as `none`).
-/

/-- Error raised by `detail::expect_exception::ensure_exception` when the
stored exception pointer is null: `invalid_exception_exception`. -/
inductive QErr where
  | invalidErrorToken
  deriving DecidableEq

/-- State of a `q::expect< T >` object: the `expect_exception` base's `e_`
field and the `expect_value` base's `t_` slot. -/
structure Expect (T : Type) where
  e : Option Nat
  t : Option T
  deriving DecidableEq

/-- Constructor `expect( T&& t )` / `expect( const T& t )`: value slot set,
exception pointer null.  It has no failing path in the source. -/
def expectFromValue {T : Type} (v : T) : Expect T := ⟨none, some v⟩

/-- The state produced by the exception-pointer constructor when the pointer
is non-null: `e_` holds the pointer, the value slot is default-constructed. -/
def expectOfErr (T : Type) (tok : Nat) : Expect T := ⟨some tok, none⟩

/-- Constructor `explicit expect( std::exception_ptr e )`: stores `e_ := e`
and runs `ensure_exception( )`, which does
`if ( !e_ ) Q_THROW( invalid_exception_exception( ) )`. -/
def expectFromErr (T : Type) (e : Option Nat) : Except QErr (Expect T) :=
  match e with
  | some tok => .ok (expectOfErr T tok)
  | none => .error .invalidErrorToken

/-- Member `detail::expect_exception::has_exception( )`:
`e_ != std::exception_ptr( )`. -/
def Expect.hasException {T : Type} (x : Expect T) : Bool := x.e.isSome

/-- Member `detail::expect_exception::rethrow_on_exception( )`: rethrows the
stored exception pointer when it is non-null, a no-op otherwise. -/
def Expect.rethrowOnException {T : Type} (x : Expect T) : Except Nat Unit :=
  match x.e with
  | some tok => .error tok
  | none => .ok ()

/-- Member `expect::get( )`: `rethrow_on_exception( ); return base::_get( );`.
Reading a default-constructed slot yields the default value of `T`. -/
def Expect.get {T : Type} [Inhabited T] (x : Expect T) : Except Nat T :=
  match x.rethrowOnException with
  | .error tok => .error tok
  | .ok _ => .ok (x.t.getD default)

/-- Member `expect::consume( )` of the primary (copyable and movable)
template: `rethrow_on_exception( ); return std::move( base::_consume( ) );`
where `_consume` moves the value out of the slot, leaving it moved-from. -/
def Expect.consume {T : Type} [Inhabited T] (x : Expect T) :
    Except Nat T × Expect T :=
  match x.e with
  | some tok => (.error tok, x)
  | none => (.ok (x.t.getD default), { x with t := none })

/-- Member `expect< T, true, false >::consume( )` (the copy-constructible,
non-movable specialization): `rethrow_on_exception( ); return base::_get( );`
— it returns a copy via `_get` and does not touch the slot. -/
def Expect.consumeCopyOnly {T : Type} [Inhabited T] (x : Expect T) :
    Except Nat T × Expect T :=
  match x.e with
  | some tok => (.error tok, x)
  | none => (.ok (x.t.getD default), x)

/-!
## The channel subsystem

Modelled from the spec: the implementation file `q/channel.hpp` is not among
the provided sources (only its test suite src/tests/q/src/channel.cpp is),
so the channel core state and its operations `send`, `ensure_send`,
`receive`, the fast-path `receive( on_value, on_closed )`, `close`,
`close( err )` and the auto-close on the drop of the last readable endpoint
are translated from spec.md §3 (data model) and §4.3 (operations).

Failure tokens carried by rejections: `channelClosed` models
`q::channel_closed_exception`, `user tag` an application failure such as the
test suite's `test_exception` (`UserFailure`).  Channel elements are the
already-tupled values; two ghost fields record the values accepted by `send`
and the values receive promises fulfilled with, in order, to state the FIFO
trace properties.
-/

/-- Modelled from the spec: failure tokens observable on a channel —
`ChannelClosed` or an application-supplied failure. -/
inductive Err where
  | channelClosed
  | user (tag : Nat)
  deriving DecidableEq

/-- Modelled from the spec: the channel core state (spec.md §3), with two
ghost logs (`accepted`, `delivered`) recording the values accepted by `send`
and the values delivered to receive promises, in order.  Back-pressure
resolvers are not modelled: no claim concerns them. -/
structure ChanState (α : Type) where
  capacity : Nat
  buffer : List α
  waiters : Nat
  closed : Bool
  terminal : Option Err
  readableCount : Nat
  accepted : List α
  delivered : List α
  deriving DecidableEq

/-- Modelled from the spec: a freshly constructed channel — empty buffer, no
waiters, open, no terminal, one readable endpoint. -/
def ChanState.init (α : Type) (cap : Nat) : ChanState α :=
  ⟨cap, [], 0, false, none, 1, [], []⟩

/-- Modelled from the spec: `send` (spec.md §4.3.1).  If closed: refuse with
`false` and change nothing.  Else if a waiter is pending: resolve the oldest
waiter with the value and return `true`.  Else if the buffer is below
capacity: push and return `true`.  Else: push anyway and return `false`. -/
def send {α : Type} (s : ChanState α) (v : α) : ChanState α × Bool :=
  if s.closed then (s, false)
  else if s.waiters ≠ 0 then
    ({ s with
        waiters := s.waiters - 1,
        accepted := s.accepted ++ [v],
        delivered := s.delivered ++ [v] }, true)
  else if s.buffer.length < s.capacity then
    ({ s with
        buffer := s.buffer ++ [v],
        accepted := s.accepted ++ [v] }, true)
  else
    ({ s with
        buffer := s.buffer ++ [v],
        accepted := s.accepted ++ [v] }, false)

/-- Modelled from the spec: `ensure_send`, which fails with `ChannelClosed`
when the channel is closed and otherwise behaves like `send`. -/
def ensureSend {α : Type} (s : ChanState α) (v : α) :
    Except Err (ChanState α × Bool) :=
  if s.closed then .error .channelClosed
  else .ok (send s v)

/-- Observation made by one `receive` call: the returned promise fulfills
with a value, rejects with a failure token, or stays pending (a waiter was
enqueued). -/
inductive Obs (α : Type) where
  | got (v : α)
  | rejected (e : Err)
  | waiting
  deriving DecidableEq

/-- Modelled from the spec: `receive` (spec.md §4.3.1).  Buffer non-empty:
pop the head and fulfill with it.  Else if closed: reject with the terminal
failure if set, else `ChannelClosed`.  Else: enqueue a waiter. -/
def receive {α : Type} (s : ChanState α) : ChanState α × Obs α :=
  match s.buffer with
  | v :: rest =>
      ({ s with buffer := rest, delivered := s.delivered ++ [v] }, .got v)
  | [] =>
      if s.closed then (s, .rejected (s.terminal.getD .channelClosed))
      else ({ s with waiters := s.waiters + 1 }, .waiting)

/-- Modelled from the spec: `close( )` (spec.md §4.3.1) — idempotent; sets
`closed`, resolves all pending waiters with `ChannelClosed`. -/
def close {α : Type} (s : ChanState α) : ChanState α :=
  if s.closed then s else { s with closed := true, waiters := 0 }

/-- Modelled from the spec: `close( err )` — as `close( )` but records the
terminal failure. -/
def closeErr {α : Type} (s : ChanState α) (e : Err) : ChanState α :=
  if s.closed then s
  else { s with closed := true, terminal := some e, waiters := 0 }

/-- Modelled from the spec: dropping a readable endpoint decrements the
readable count; when it reaches zero the channel is auto-closed (spec.md §3
lifecycle). -/
def dropReadable {α : Type} (s : ChanState α) : ChanState α :=
  let s1 := { s with readableCount := s.readableCount - 1 }
  if s1.readableCount = 0 then close s1 else s1

/-- Completion of the promise returned by a fast-path receive. -/
inductive FastRes where
  | fulfilled
  | rejectedWith (e : Err)
  | pending
  deriving DecidableEq

/-- Outcome of one fast-path `receive( on_value, on_closed )` call: the new
channel state, the returned promise's completion, and which callback was
invoked (and with which value). -/
structure FastOut (α : Type) where
  state : ChanState α
  res : FastRes
  calledValue : Option α
  calledClosed : Bool
  deriving DecidableEq

/-- Modelled from the spec: when a fast-path `on_value` callback throws, the
channel is closed with that same failure (spec.md §4.3.1 fast path and §8:
afterwards the terminal is that failure even if the channel had already been
closed normally). -/
def closeOnThrow {α : Type} (s : ChanState α) (e : Err) : ChanState α :=
  { s with closed := true, terminal := some e, waiters := 0 }

/-- Modelled from the spec: the fast-path
`receive( on_value, on_closed )` (spec.md §4.3.1) — same state decisions as
`receive`, resolving into the callbacks.  The callback `on_value` is given
as `onv : α → Option Err`, where `some f` means it throws failure `f`.
Buffer non-empty: pop the head, call `on_value`; if it throws `f`, the
returned promise rejects with `f` and the channel is closed with `f`.
Buffer empty and closed: with a terminal failure, neither callback runs and
the promise rejects with it; with no terminal, `on_closed` runs.  Otherwise
a waiter is enqueued. -/
def fastReceive {α : Type} (s : ChanState α) (onv : α → Option Err) :
    FastOut α :=
  match s.buffer with
  | v :: rest =>
      let s1 :=
        { s with buffer := rest, delivered := s.delivered ++ [v] }
      match onv v with
      | none => ⟨s1, .fulfilled, some v, false⟩
      | some f => ⟨closeOnThrow s1 f, .rejectedWith f, some v, false⟩
  | [] =>
      if s.closed then
        match s.terminal with
        | some e => ⟨s, .rejectedWith e, none, false⟩
        | none => ⟨s, .fulfilled, none, true⟩
      else ⟨{ s with waiters := s.waiters + 1 }, .pending, none, false⟩

/-- One channel operation, for reasoning about arbitrary operation
sequences. -/
inductive ChanOp (α : Type) where
  | send (v : α)
  | receive
  | close
  | closeErr (e : Err)
  | dropReadable
  deriving DecidableEq

/-- Per-operation observation in a trace. -/
inductive TraceObs (α : Type) where
  | sendRet (b : Bool)
  | recvObs (o : Obs α)
  | closedOp
  deriving DecidableEq

/-- Apply one operation to the channel state. -/
def step {α : Type} (s : ChanState α) : ChanOp α → ChanState α × TraceObs α
  | .send v => ((send s v).1, .sendRet (send s v).2)
  | .receive => ((receive s).1, .recvObs (receive s).2)
  | .close => (close s, .closedOp)
  | .closeErr e => (closeErr s e, .closedOp)
  | .dropReadable => (dropReadable s, .closedOp)

/-- Run a sequence of operations, returning the final state. -/
def runOps {α : Type} (s : ChanState α) : List (ChanOp α) → ChanState α
  | [] => s
  | op :: ops => runOps (step s op).1 ops

/-- Run a sequence of operations, collecting the per-operation
observations. -/
def runTrace {α : Type} (s : ChanState α) :
    List (ChanOp α) → ChanState α × List (TraceObs α)
  | [] => (s, [])
  | op :: ops =>
      ((runTrace (step s op).1 ops).1,
        (step s op).2 :: (runTrace (step s op).1 ops).2)

/-- Iterate `receive` a given number of times, collecting observations. -/
def receiveN {α : Type} (s : ChanState α) : Nat → ChanState α × List (Obs α)
  | 0 => (s, [])
  | n + 1 =>
      ((receiveN (receive s).1 n).1,
        (receive s).2 :: (receiveN (receive s).1 n).2)

/-- The channel core invariant: the values accepted by `send` are exactly
the delivered values followed by the buffered ones, and waiters and buffered
values never coexist (spec.md §3). -/
def chanInv {α : Type} (s : ChanState α) : Prop :=
  s.accepted = s.delivered ++ s.buffer ∧ (s.waiters ≠ 0 → s.buffer = [])

/-- Modelled from the spec: element of a channel whose element type is
`Promise< Tuple< int > >` or `SharedPromise< Tuple< int > >` — an eventually
completed inner promise, fulfilled with a value or rejected with a
failure. -/
abbrev PVal := Except Err Nat

/-- Modelled from the spec: the auto-flattening of the promise and
shared-promise channel specializations (spec.md §4.3.4) — the promise
returned by `receive` fulfills with the inner value or rejects with the
inner rejection, never with the raw promise.  Both specializations flatten
identically. -/
def flatten (o : Obs PVal) : Obs Nat :=
  match o with
  | .got (.ok v) => .got v
  | .got (.error e) => .rejected e
  | .rejected e => .rejected e
  | .waiting => .waiting

/-- The sequence of flattened receive observations of a trace. -/
def flatReceives (t : List (TraceObs PVal)) : List (Obs Nat) :=
  t.filterMap fun o =>
    match o with
    | .recvObs r => some (flatten r)
    | _ => none

/-- Concrete on-value callback for the C8 counterexample: throws
`user 1` (the test suite's `test_exception`) on the value 17. -/
def c8onv : Nat → Option Err :=
  fun v => if v = 17 then some (.user 1) else none

/-- Concrete channel state for the C8 counterexample: capacity 5, values 17
and 4711 sent, channel still open. -/
def c8state : ChanState Nat :=
  (send (send (ChanState.init Nat 5) 17).1 4711).1

/-- The first fast-path receive of the C8 counterexample: its `on_value`
throws on 17. -/
def c8out1 : FastOut Nat := fastReceive c8state c8onv

/-- Operation sequence of the single-type scenario (test `one_type`):
capacity 5, send 17 and 4711, close, then three receives. -/
def c5ops : List (ChanOp Nat) :=
  [.send 17, .send 4711, .close, .receive, .receive, .receive]

/-- Operation sequence of the promise-specialization rejection scenario
(tests `channel_promise_specialization_rejection` and
`channel_shared_promise_specialization_rejection`): send a promise fulfilled
with 5, a promise rejected with the test failure, a promise fulfilled with
17, close, then four receives. -/
def c6ops : List (ChanOp PVal) :=
  [.send (.ok 5), .send (.error (.user 1)), .send (.ok 17), .close,
    .receive, .receive, .receive, .receive]

/-- Concrete state for the C7 witness: a channel closed with a user failure
while the values 17 and 4711 are still buffered (test
`fast_receive_closed_with_exception`). -/
def c7s : ChanState Nat :=
  closeErr (send (send (ChanState.init Nat 5) 17).1 4711).1 (.user 1)

/-- Concrete state for the C8 witness: a channel whose buffer holds exactly
the value 17. -/
def c8ws : ChanState Nat := (send (ChanState.init Nat 5) 17).1

/-- Concrete state for the C9 witness: an open channel of capacity 2 whose
buffer is full with the values 1 and 2. -/
def c9s : ChanState Nat :=
  (send (send (ChanState.init Nat 2) 1).1 2).1

/-- C1: Constructing an `expect< T >` from a value never fails, and
constructing it from an exception pointer fails with
`invalid_exception_exception` exactly when the pointer is null; a non-null
pointer is stored successfully. -/
theorem expect_construction_C1 (T : Type) (e : Option Nat) (v : T) :
    (expectFromErr T e = .error .invalidErrorToken ↔ e = none) ∧
    (∀ tok : Nat, expectFromErr T (some tok) = .ok (expectOfErr T tok)) ∧
    (expectFromValue v).hasException = false ∧
    (expectFromValue v).t = some v := by
  refine ⟨?_, fun tok => rfl, rfl, rfl⟩
  cases e <;> simp [expectFromErr]

/-- C2: Extraction from an `expect< T >` either yields the value or rethrows
the stored failure: on a failure-holding object both `get` and `consume`
rethrow exactly the stored token; on a value-holding object `get` returns
the value and `consume` moves it out, raising no failure. -/
theorem expect_extraction_C2 (T : Type) [Inhabited T] (tok : Nat) (v : T) :
    (expectOfErr T tok).get = .error tok ∧
    (expectOfErr T tok).consume = (.error tok, expectOfErr T tok) ∧
    (expectFromValue v).get = .ok v ∧
    (expectFromValue v).consume = (.ok v, ⟨none, none⟩) := by
  exact ⟨rfl, rfl, rfl, rfl⟩

/-- C10: For the copy-constructible, non-movable specialization
`expect< T, true, false >`, `consume` does not move the stored value out: it
leaves the object unchanged, returns the same answer as `get`, and can be
repeated with identical results. -/
theorem expect_consume_copy_only_C10 (T : Type) [Inhabited T] (x : Expect T) :
    (x.consumeCopyOnly).2 = x ∧
    (x.consumeCopyOnly).1 = x.get ∧
    (x.consumeCopyOnly).2.consumeCopyOnly = x.consumeCopyOnly := by
  rcases x with ⟨e, t⟩
  cases e <;>
    simp [Expect.consumeCopyOnly, Expect.get, Expect.rethrowOnException]

/-- The channel invariant holds initially. -/
lemma chanInv_init (α : Type) (cap : Nat) : chanInv (ChanState.init α cap) :=
  ⟨rfl, fun _ => rfl⟩

/-- Every operation preserves the channel invariant. -/
lemma chanInv_step {α : Type} (s : ChanState α) (op : ChanOp α)
    (h : chanInv s) : chanInv (step s op).1 := by
  obtain ⟨hacc, hw⟩ := h
  cases op with
  | send v =>
      simp only [step, send]
      by_cases hc : s.closed
      · simpa [hc] using ⟨hacc, hw⟩
      · by_cases hwt : s.waiters ≠ 0
        · have hb : s.buffer = [] := hw hwt
          simp [hc, hwt, chanInv, hacc, hb]
        · by_cases hcap : s.buffer.length < s.capacity <;>
            simp [hc, hwt, hcap, chanInv, hacc, hw]
  | receive =>
      simp only [step, receive]
      rcases hbuf : s.buffer with _ | ⟨v, rest⟩
      · by_cases hc : s.closed <;>
          simp [hc, chanInv, hacc, hbuf, hw]
      · have hw0 : s.waiters = 0 := by
          by_contra hne
          simp [hw hne] at hbuf
        simp [chanInv, hacc, hbuf, hw0]
  | close =>
      simp only [step, close]
      by_cases hc : s.closed <;> simp [hc, chanInv, hacc] <;> exact hw
  | closeErr e =>
      simp only [step, closeErr]
      by_cases hc : s.closed <;> simp [hc, chanInv, hacc] <;> exact hw
  | dropReadable =>
      simp only [step, dropReadable, close]
      by_cases hz : s.readableCount - 1 = 0 <;>
        by_cases hc : s.closed <;>
          simp [hz, hc, chanInv, hacc] <;> exact hw

/-- Running any operation sequence preserves the channel invariant. -/
lemma chanInv_runOps {α : Type} (s : ChanState α) (ops : List (ChanOp α))
    (h : chanInv s) : chanInv (runOps s ops) := by
  induction ops generalizing s with
  | nil => exact h
  | cons op ops ih => exact ih _ (chanInv_step s op h)

/-- C3: FIFO preservation — for any sequence of operations on a channel,
the sequence of values with which receive promises fulfill is a prefix of
the sequence of values accepted by `send`, in the order `send` accepted
them. -/
theorem channel_fifo_C3 (α : Type) (cap : Nat) (ops : List (ChanOp α)) :
    ∃ rest,
      (runOps (ChanState.init α cap) ops).delivered ++ rest =
        (runOps (ChanState.init α cap) ops).accepted := by
  have h := chanInv_runOps (ChanState.init α cap) ops (chanInv_init α cap)
  exact ⟨(runOps (ChanState.init α cap) ops).buffer, h.1.symm⟩

/-- Closedness is monotone: no operation reopens a closed channel. -/
lemma closed_step {α : Type} (s : ChanState α) (op : ChanOp α)
    (h : s.closed = true) : (step s op).1.closed = true := by
  cases op with
  | send v => simp [step, send, h]
  | receive =>
      rcases hbuf : s.buffer with _ | ⟨v, rest⟩ <;>
        simp [step, receive, hbuf, h]
  | close => simp [step, close, h]
  | closeErr e => simp [step, closeErr, h]
  | dropReadable =>
      by_cases hz : s.readableCount - 1 = 0 <;>
        simp [step, dropReadable, close, hz, h]

/-- Closedness is monotone across any operation sequence. -/
lemma closed_runOps {α : Type} (s : ChanState α) (ops : List (ChanOp α))
    (h : s.closed = true) : (runOps s ops).closed = true := by
  induction ops generalizing s with
  | nil => exact h
  | cons op ops ih => exact ih _ (closed_step s op h)

/-- Draining: on a channel whose buffer is `l1 ++ l2`, iterating `receive`
`l1.length` times pops exactly `l1` in order, leaving `l2` buffered and the
rest of the state untouched. -/
lemma receiveN_drain {α : Type} (l1 l2 : List α) :
    ∀ s : ChanState α, s.buffer = l1 ++ l2 →
      receiveN s l1.length =
        ({ s with buffer := l2, delivered := s.delivered ++ l1 },
          l1.map Obs.got) := by
  induction l1 with
  | nil =>
      rintro ⟨cap, buf, w, c, t, rc, acc, del⟩ h
      simp only [List.nil_append] at h
      subst h
      simp [receiveN]
  | cons v tl ih =>
      rintro ⟨cap, buf, w, c, t, rc, acc, del⟩ h
      simp only [List.cons_append] at h
      subst h
      simp only [List.length_cons, receiveN, receive]
      rw [ih _ rfl]
      simp

/-- C4: once a channel is closed — by `close( )`, by `close( err )`, or by
the drop of its last readable endpoint — every subsequent `send` returns
`false` and leaves the state unchanged, and every subsequent `ensure_send`
fails with `ChannelClosed`. -/
theorem channel_closed_send_C4 (s c : ChanState Nat) (v : Nat) (e : Err)
    (ops : List (ChanOp Nat))
    (h : c = close s ∨ c = closeErr s e ∨
      (s.readableCount = 1 ∧ c = dropReadable s)) :
    c.closed = true ∧
    send (runOps c ops) v = (runOps c ops, false) ∧
    ensureSend (runOps c ops) v = .error .channelClosed := by
  have hc : c.closed = true := by
    rcases h with h | h | ⟨h1, h⟩
    · subst h; by_cases hs : s.closed <;> simp [close, hs]
    · subst h; by_cases hs : s.closed <;> simp [closeErr, hs]
    · subst h
      simp only [dropReadable, h1]
      by_cases hs : s.closed <;> simp [close, hs]
  have hrc := closed_runOps c ops hc
  exact ⟨hc, by simp [send, hrc], by simp [ensureSend, hrc]⟩

/-- Witness for C4 at a concretely closed channel followed by further
operations. -/
theorem channel_closed_send_C4_witness :
    (close (ChanState.init Nat 5)).closed = true ∧
    send (runOps (close (ChanState.init Nat 5))
        [.send 3, .receive]) 9 =
      (runOps (close (ChanState.init Nat 5)) [.send 3, .receive], false) ∧
    ensureSend (runOps (close (ChanState.init Nat 5))
        [.send 3, .receive]) 9 = .error .channelClosed :=
  channel_closed_send_C4 (ChanState.init Nat 5)
    (close (ChanState.init Nat 5)) 9 (.user 0) [.send 3, .receive]
    (Or.inl rfl)

/-- C5: on a channel of capacity 5, after sending 17 and 4711 and closing,
the three successive receives fulfill with 17, fulfill with 4711, and reject
with `ChannelClosed`. -/
theorem channel_one_type_C5 :
    (runTrace (ChanState.init Nat 5) c5ops).2 =
      [.sendRet true, .sendRet true, .closedOp,
        .recvObs (.got 17), .recvObs (.got 4711),
        .recvObs (.rejected .channelClosed)] := by
  decide

/-- C6: on a channel of promises (or shared promises), receive
auto-flattens: sending a promise fulfilled with 5, a promise rejected with
the user failure, and a promise fulfilled with 17, then closing, makes the
four successive receives fulfill 5, reject with the user failure, fulfill
17, and reject with `ChannelClosed`. -/
theorem channel_flatten_C6 :
    flatReceives (runTrace (ChanState.init PVal 5) c6ops).2 =
      [.got 5, .rejected (.user 1), .got 17,
        .rejected .channelClosed] := by
  decide

/-- C7: after `close( err )` with buffered elements, the buffered elements
are all delivered in order first, the next receive rejects with `err`, and a
fast-path receive that finds the buffer empty invokes neither `on_value` nor
`on_closed` while its promise rejects with `err`. -/
theorem channel_close_err_drain_C7 (s : ChanState Nat) (err : Err)
    (onv : Nat → Option Err) (hc : s.closed = true)
    (ht : s.terminal = some err) :
    (receiveN s s.buffer.length).2 = s.buffer.map Obs.got ∧
    (receive (receiveN s s.buffer.length).1).2 = .rejected err ∧
    (s.buffer = [] →
      (fastReceive s onv).calledValue = none ∧
      (fastReceive s onv).calledClosed = false ∧
      (fastReceive s onv).res = .rejectedWith err) := by
  have hd := receiveN_drain s.buffer [] s (by simp)
  refine ⟨by rw [hd], ?_, ?_⟩
  · rw [hd]
    simp [receive, hc, ht]
  · intro hb
    simp [fastReceive, hb, hc, ht]

/-- Witness for C7 at a channel closed with a user failure while 17 and
4711 are buffered. -/
theorem channel_close_err_drain_C7_witness :
    (receiveN c7s c7s.buffer.length).2 = c7s.buffer.map Obs.got ∧
    (receive (receiveN c7s c7s.buffer.length).1).2 =
      .rejected (.user 1) ∧
    (c7s.buffer = [] →
      (fastReceive c7s fun _ => none).calledValue = none ∧
      (fastReceive c7s fun _ => none).calledClosed = false ∧
      (fastReceive c7s fun _ => none).res = .rejectedWith (.user 1)) :=
  channel_close_err_drain_C7 c7s (.user 1) (fun _ => none) rfl rfl

/-- C8 counterexample: the claim as stated is false.  With 17 and 4711 sent
on an open channel, a fast-path receive whose `on_value` throws on 17 does
reject its promise and close the channel with that failure, but the next
fast-path receive finds 4711 still buffered and invokes `on_value` with it,
rather than invoking no callback and observing the failure. -/
theorem channel_fast_throw_C8_counterexample :
    c8out1.res = .rejectedWith (.user 1) ∧
    c8out1.state.closed = true ∧
    c8out1.state.terminal = some (.user 1) ∧
    ¬((fastReceive c8out1.state c8onv).calledValue = none ∧
      (fastReceive c8out1.state c8onv).calledClosed = false ∧
      (fastReceive c8out1.state c8onv).res = .rejectedWith (.user 1)) := by
  decide

/-- C8 amended: if the `on_value` callback of a fast-path receive throws a
failure `f`, the returned promise rejects with `f` and the channel becomes
closed with terminal `f`; a subsequent fast-path receive that finds the
buffer empty invokes neither callback and its promise rejects with `f`. -/
theorem channel_fast_throw_C8 (s : ChanState Nat) (v : Nat)
    (rest : List Nat) (onv onv2 : Nat → Option Err) (f : Err)
    (hb : s.buffer = v :: rest) (hf : onv v = some f) :
    (fastReceive s onv).res = .rejectedWith f ∧
    (fastReceive s onv).state.closed = true ∧
    (fastReceive s onv).state.terminal = some f ∧
    (rest = [] →
      (fastReceive (fastReceive s onv).state onv2).calledValue = none ∧
      (fastReceive (fastReceive s onv).state onv2).calledClosed = false ∧
      (fastReceive (fastReceive s onv).state onv2).res =
        .rejectedWith f) := by
  refine ⟨?_, ?_, ?_, ?_⟩ <;>
    simp [fastReceive, hb, hf, closeOnThrow]
  intro hrest
  simp [fastReceive, hb, hf, closeOnThrow, hrest]

/-- Witness for C8 amended at a channel whose buffer holds only 17, with an
`on_value` that throws the user failure on 17. -/
theorem channel_fast_throw_C8_witness :
    (fastReceive c8ws c8onv).res = .rejectedWith (.user 1) ∧
    (fastReceive c8ws c8onv).state.closed = true ∧
    (fastReceive c8ws c8onv).state.terminal = some (.user 1) ∧
    (([] : List Nat) = [] →
      (fastReceive (fastReceive c8ws c8onv).state c8onv).calledValue =
        none ∧
      (fastReceive (fastReceive c8ws c8onv).state c8onv).calledClosed =
        false ∧
      (fastReceive (fastReceive c8ws c8onv).state c8onv).res =
        .rejectedWith (.user 1)) :=
  channel_fast_throw_C8 c8ws 17 [] c8onv c8onv (.user 1) rfl rfl

/-- C9: on an open channel with no pending waiters whose buffer already
holds at least capacity many elements, a further `send` still appends the
element and returns `false`, and that element is delivered after all
previously buffered ones, in FIFO position. -/
theorem channel_over_capacity_C9 (s : ChanState Nat) (v : Nat)
    (hc : s.closed = false) (hw : s.waiters = 0)
    (hcap : s.capacity ≤ s.buffer.length) :
    send s v =
      ({ s with
          buffer := s.buffer ++ [v],
          accepted := s.accepted ++ [v] }, false) ∧
    (receiveN (send s v).1 s.buffer.length).2 = s.buffer.map Obs.got ∧
    (receive (receiveN (send s v).1 s.buffer.length).1).2 = .got v := by
  have hsend : send s v =
      ({ s with
          buffer := s.buffer ++ [v],
          accepted := s.accepted ++ [v] }, false) := by
    simp [send, hc, hw, Nat.not_lt.mpr hcap]
  have hd := receiveN_drain s.buffer [v] (send s v).1 (by rw [hsend])
  refine ⟨hsend, by rw [hd], ?_⟩
  rw [hd]
  simp [receive]

/-- Witness for C9 at an open channel of capacity 2 whose buffer is full
with 1 and 2, sending 9. -/
theorem channel_over_capacity_C9_witness :
    send c9s 9 =
      ({ c9s with
          buffer := c9s.buffer ++ [9],
          accepted := c9s.accepted ++ [9] }, false) ∧
    (receiveN (send c9s 9).1 c9s.buffer.length).2 =
      c9s.buffer.map Obs.got ∧
    (receive (receiveN (send c9s 9).1 c9s.buffer.length).1).2 = .got 9 :=
  channel_over_capacity_C9 c9s 9 rfl rfl (by decide)

end QSpec
